import Mathlib

/-!
Shallow embedding of the NIFTY OI monitor (`nifty_oi_monitor.py`): the
per-strike baseline ledger, the NONE/WATCH/EXECUTED classifier, the
conviction scorer, the threshold adapter, the daily rate limiter, and the
persistence prefix of `scan()`.  Prices and percentages are modelled as ℚ
(the source uses Python floats only for ratio comparisons), open-interest
and volume counts as ℤ, counters as ℕ.  Each definition mirrors one
function or block of the source file.
-/

set_option maxHeartbeats 1000000
set_option linter.unusedTactic false
set_option linter.unreachableTactic false

/-! ## Configuration constants (module header of `nifty_oi_monitor.py`) -/

def OI_WATCH_THRESHOLD : ℚ := 300

def OI_EXEC_THRESHOLD : ℚ := 500

def MIN_BASE_OI : ℤ := 1000

def STRIKE_RANGE_POINTS : ℤ := 100

def OI_BOTH_SIDES_AVOID : ℚ := 250

/-- PREMIUM_MAX_RISE = 8: the base premium tolerance constant. -/
def PREMIUM_MAX_RISE : ℚ := 8

def MIN_DECLINE_PCT : ℚ := -3/2

def MIN_CUMULATIVE_DECLINE_PCT : ℚ := -10

def MAX_SIGNALS_PER_DAY : ℕ := 3

def MAX_WATCH_PER_DAY : ℕ := 3

def SCORE_IMPROVEMENT_THRESHOLD : ℤ := 10

/-! ## Data model -/

/-- Option side: `option_type` in the chain rows, "CE" or "PE". -/
inductive OptSide where
  | CE
  | PE
deriving DecidableEq

/-- Opposite side: `opp_opt = "PE" if opt == "CE" else "CE"`. -/
def OptSide.opp : OptSide → OptSide
  | .CE => .PE
  | .PE => .CE

/-- Classifier state of one strike entry: `entry["state"]`. -/
inductive StState where
  | NONE
  | WATCH
  | EXECUTED
deriving DecidableEq

/-- Numeric order of classifier states along NONE → WATCH → EXECUTED. -/
def stOrd : StState → ℕ
  | .NONE => 0
  | .WATCH => 1
  | .EXECUTED => 2

/-- One per-(side,strike) ledger entry: `baseline["data"][key]` after
migration (every field present).  `first_exec_time` is the timestamp (in
minutes) when OI% first crossed the exec threshold in the current streak. -/
structure Entry where
  baseline_oi : ℤ
  baseline_ltp : ℚ
  baseline_vol : ℤ
  prev_oi : ℤ
  state : StState
  first_exec_time : Option ℚ
  scan_count : ℕ
  decline_streak : ℕ
deriving DecidableEq

/-- Conviction tier, determined from the total score at the end of
`calculate_conviction_score`. -/
inductive Tier where
  | PREMIUM
  | HIGH
  | MEDIUM
  | LOW
deriving DecidableEq

/-- Tier selection block of `calculate_conviction_score` (lines 476-487). -/
def tierOf (score : ℤ) : Tier :=
  if score ≥ 120 then .PREMIUM
  else if score ≥ 90 then .HIGH
  else if score ≥ 60 then .MEDIUM
  else .LOW

/-- The `buildup_data` dict passed to `calculate_conviction_score`. -/
structure BuildupData where
  strike : ℤ
  opt_type : OptSide
  oi_pct : ℚ
  ltp_change_pct : ℚ
  vol_multiplier : ℚ
  opp_decline_pct : ℚ
  decline_streak : ℕ
  buildup_time_mins : ℚ
  scan_count : ℕ
  exec_threshold : ℚ
deriving DecidableEq

/-- The `components` dict built up inside `calculate_conviction_score`. -/
structure ScoreComponents where
  strike_quality_pts : ℤ
  volume_pts : ℤ
  velocity_pts : ℤ
  decline_pts : ℤ
  decline_streak_pts : ℤ
  spot_pts : ℤ
  sustainability_pts : ℤ
  cluster_pts : ℤ
  premium_behavior_pts : ℤ
deriving DecidableEq

/-! ## Conviction scoring (`calculate_conviction_score` and helpers) -/

/-- Section A, Strike Quality (0-30 points). -/
def strike_quality_pts (strike atm : ℤ) : ℤ :=
  if |strike - atm| ≤ 25 then 30
  else if |strike - atm| ≤ 50 then 20
  else if |strike - atm| ≤ 75 then 10
  else 0

/-- Section B, Volume Confirmation (0-20 points). -/
def volume_pts (vol_multiplier : ℚ) : ℤ :=
  if vol_multiplier ≥ 3 then 20
  else if vol_multiplier ≥ 2 then 10
  else if vol_multiplier ≥ 3/2 then 5
  else 0

/-- Section C, Buildup Velocity (0-25 points). -/
def velocity_pts (buildup_time_mins : ℚ) : ℤ :=
  if buildup_time_mins ≤ 30 then 25
  else if buildup_time_mins ≤ 60 then 15
  else if buildup_time_mins ≤ 120 then 5
  else 0

/-- Section D, Opposite Decline Magnitude (0-25 points). -/
def decline_pts (opp_decline_pct : ℚ) : ℤ :=
  if |opp_decline_pct| ≥ 10 then 25
  else if |opp_decline_pct| ≥ 5 then 15
  else if |opp_decline_pct| ≥ 3/2 then 5
  else 0

/-- Section D2, Sustained Decline Bonus (0-20 points). -/
def decline_streak_pts (decline_streak : ℕ) : ℤ :=
  if decline_streak ≥ 3 then 20
  else if decline_streak ≥ 2 then 10
  else 0

/-- Section E, Spot Momentum Alignment (0-20 points or -20 penalty).
`day_open` follows Python truthiness: `None` and `0` take the
no-day-open-data branch. -/
def spot_pts : OptSide → Option ℚ → ℚ → ℤ
  | _, none, _ => 0
  | .CE, some d, spot =>
    if d = 0 then 0
    else if (spot - d) / d * 100 ≤ -3/10 then 20
    else if (spot - d) / d * 100 < 0 then 10
    else -20
  | .PE, some d, spot =>
    if d = 0 then 0
    else if (spot - d) / d * 100 ≥ 3/10 then 20
    else if (spot - d) / d * 100 > 0 then 10
    else -20

/-- Section F, Sustainability Check (0-15 points). -/
def sustainability_pts (scan_count : ℕ) : ℤ :=
  if scan_count ≥ 3 then 15
  else if scan_count ≥ 2 then 10
  else 0

/-- The `check_adjacent_cluster` helper: counts same-side buildup at 70%
of the exec threshold and opposite-side decline below -5% on the four
adjacent strikes (±50, ±100 points).  `changes` models the
`strike_oi_changes` dict with its `.get(..., 0)` default. -/
def check_adjacent_cluster (strike : ℤ) (opt : OptSide)
    (changes : ℤ → OptSide → ℚ) (exec_threshold : ℚ) : ℕ × ℕ :=
  let offsets : List ℤ := [-100, -50, 50, 100]
  let same := (offsets.filter
    (fun o => decide (changes (strike + o) opt ≥ exec_threshold * (7/10)))).length
  let oppDecl := (offsets.filter
    (fun o => decide (changes (strike + o) opt.opp < -5))).length
  (same, oppDecl)

/-- Section G, Adjacent Strike Cluster (0-20 points). -/
def cluster_pts (adj_same adj_opp : ℕ) : ℤ :=
  if adj_same ≥ 3 ∨ adj_opp ≥ 2 then 20
  else if adj_same ≥ 2 ∨ adj_opp ≥ 1 then 10
  else 0

/-- Section H, Premium Behavior (-10 to 15 points).  Note that the upper
band is bounded by the module constant `PREMIUM_MAX_RISE` (8), not by the
scan's dynamically adapted premium tolerance. -/
def premium_behavior_pts (ltp_change_pct : ℚ) : ℤ :=
  if ltp_change_pct ≤ -5 then 15
  else if ltp_change_pct ≤ 0 then 10
  else if ltp_change_pct ≤ 5 then 5
  else if ltp_change_pct ≤ PREMIUM_MAX_RISE then 0
  else -10

/-- The `calculate_conviction_score` function: total score, tier and the
per-component breakdown. -/
def calculate_conviction_score (bd : BuildupData) (atm : ℤ)
    (day_open : Option ℚ) (spot : ℚ) (changes : ℤ → OptSide → ℚ) :
    ℤ × Tier × ScoreComponents :=
  let adj := check_adjacent_cluster bd.strike bd.opt_type changes bd.exec_threshold
  let comps : ScoreComponents :=
    { strike_quality_pts := strike_quality_pts bd.strike atm
      volume_pts := volume_pts bd.vol_multiplier
      velocity_pts := velocity_pts bd.buildup_time_mins
      decline_pts := decline_pts bd.opp_decline_pct
      decline_streak_pts := decline_streak_pts bd.decline_streak
      spot_pts := spot_pts bd.opt_type day_open spot
      sustainability_pts := sustainability_pts bd.scan_count
      cluster_pts := cluster_pts adj.1 adj.2
      premium_behavior_pts := premium_behavior_pts bd.ltp_change_pct }
  let score := comps.strike_quality_pts + comps.volume_pts + comps.velocity_pts
    + comps.decline_pts + comps.decline_streak_pts + comps.spot_pts
    + comps.sustainability_pts + comps.cluster_pts + comps.premium_behavior_pts
  (score, tierOf score, comps)

/-! ## Daily rate limiter (`should_send_signal`) -/

/-- Minimum of the scores recorded in `daily_signals` (Python
`min(s["score"] for s in daily_signals)`, empty list never reaches it). -/
def minScore : List ℤ → ℤ
  | [] => 0
  | x :: xs => xs.foldl min x

/-- The `should_send_signal` decision (reason string omitted): allow while
under the daily cap; at the cap allow only a clear improvement over the
weakest signal sent today (or unconditionally if the record list is
empty). -/
def should_send_signal (signals_today : ℕ) (daily_signals : List ℤ)
    (new_signal_score : ℤ) : Bool :=
  if signals_today < MAX_SIGNALS_PER_DAY then true
  else if daily_signals = [] then true
  else decide (new_signal_score > minScore daily_signals + SCORE_IMPROVEMENT_THRESHOLD)

/-! ## Threshold adapter (scan lines 588-616) -/

/-- Minimum conviction score as a function of days to expiry
(lines 588-600 of `scan`). -/
def min_conviction_score_for (base : ℤ) (days_to_expiry : ℤ) : ℤ :=
  if days_to_expiry ≥ 4 then base
  else if days_to_expiry ≥ 2 then base
  else if days_to_expiry = 1 then 100
  else 120

/-- Dynamic premium tolerance from the day-open spot drift
(lines 602-616 of `scan`).  `day_open` follows Python truthiness: `None`
and `0` leave the spot move at 0. -/
def premium_tolerance_for (day_open : Option ℚ) (spot : ℚ) : ℚ :=
  let spot_move_pct : ℚ :=
    match day_open with
    | some d => if d = 0 then 0 else (spot - d) / d * 100
    | none => 0
  if |spot_move_pct| ≥ 1/2 then 15
  else if |spot_move_pct| ≥ 3/10 then 10
  else PREMIUM_MAX_RISE

/-! ## Classifier: the per-row body of the main processing loop -/

/-- Per-row context for one (side,strike) row in one scan: the row's
current values, the scan-level parameters, and the opposite-side data the
row's processing may read or mutate.  `changes` models `strike_oi_changes`
with its `.get(..., 0)` defaults, `opp_current_oi` models
`current_oi_map.get((strike, opp_opt), 0)`. -/
structure RowCtx where
  strike : ℤ
  opt : OptSide
  oi : ℤ
  ltp : ℚ
  vol : ℤ
  atm : ℤ
  spot : ℚ
  day_open : Option ℚ
  current_time : ℚ
  changes : ℤ → OptSide → ℚ
  premium_tolerance : ℚ
  min_conviction_score : ℤ
  opp_entry : Option Entry
  opp_current_oi : ℤ
  watch_today : ℕ

/-- OI percent change against the baseline anchor (line 692). -/
def oiPctOf (base_oi oi : ℤ) : ℚ :=
  ((oi : ℚ) - (base_oi : ℚ)) / (base_oi : ℚ) * 100

/-- The `calculate_buildup_time` helper: minutes since OI first crossed
the exec threshold, 0 when no streak is recorded. -/
def calculate_buildup_time (entry : Entry) (current_time : ℚ) : ℚ :=
  match entry.first_exec_time with
  | some t => max 0 (current_time - t)
  | none => 0

/-- WATCH block of the scan loop (lines 696-725): on `oi_pct` at the watch
threshold with state NONE, the watch counter is bumped and the message
sent only when all three quality gates pass, but the state advances to
WATCH unconditionally.  Returns (updated entry, updated watch counter). -/
def watchBlock (entry : Entry) (oi_pct : ℚ) (strike atm : ℤ)
    (changes : ℤ → OptSide → ℚ) (watch_today : ℕ) : Entry × ℕ :=
  if oi_pct ≥ OI_WATCH_THRESHOLD ∧ entry.state = StState.NONE then
    ({ entry with state := StState.WATCH },
      -- conflicted / too_far_otm / watch_limit_hit gates, inlined
      if ¬(changes strike OptSide.CE ≥ OI_BOTH_SIDES_AVOID ∧
             changes strike OptSide.PE ≥ OI_BOTH_SIDES_AVOID) ∧
         ¬(|strike - atm| > 100) ∧ ¬(watch_today ≥ MAX_WATCH_PER_DAY)
      then watch_today + 1 else watch_today)
  else (entry, watch_today)

/-- Buildup streak bookkeeping (lines 727-740): maintain
`first_exec_time` and `scan_count` from whether `oi_pct` is at the exec
threshold. -/
def trackBlock (entry : Entry) (oi_pct : ℚ) (current_time : ℚ) : Entry :=
  if oi_pct ≥ OI_EXEC_THRESHOLD then
    match entry.first_exec_time with
    | none => { entry with first_exec_time := some current_time, scan_count := 1 }
    | some _ => { entry with scan_count := entry.scan_count + 1 }
  else
    match entry.first_exec_time with
    | some _ => { entry with first_exec_time := none, scan_count := 0 }
    | none => entry

/-- Scan-to-scan decline of the opposite side (line 777):
`opp_decline_pct`, with its `opp_prev_oi > 0` guard. -/
def opp_decline_pct_of (opp : Entry) (opp_current_oi : ℤ) : ℚ :=
  if opp.prev_oi > 0
  then ((opp_current_oi : ℚ) - (opp.prev_oi : ℚ)) / (opp.prev_oi : ℚ) * 100
  else 0

/-- Cumulative decline of the opposite side against its baseline
(line 778): `opp_cumulative_decline_pct`, with its guard. -/
def opp_cumulative_decline_pct_of (opp : Entry) (opp_current_oi : ℤ) : ℚ :=
  if opp.baseline_oi > 0
  then ((opp_current_oi : ℚ) - (opp.baseline_oi : ℚ)) / (opp.baseline_oi : ℚ) * 100
  else 0

/-- EXECUTION block of the scan loop (lines 742-852).  `origState` is the
local `state` variable read before the WATCH block, `entry2` the entry
after the WATCH and tracking updates.  Returns (updated entry, updated
opposite entry, collected buildup candidate if any). -/
def execBlock (origState : StState) (entry2 : Entry) (c : RowCtx)
    (oi_pct ltp_change_pct vol_multiplier : ℚ) :
    Entry × Option Entry × Option BuildupData :=
  if origState = StState.EXECUTED then (entry2, c.opp_entry, none) else
  if oi_pct ≥ OI_EXEC_THRESHOLD ∧ ltp_change_pct ≤ c.premium_tolerance then
    if c.changes c.strike OptSide.CE ≥ OI_BOTH_SIDES_AVOID ∧
        c.changes c.strike OptSide.PE ≥ OI_BOTH_SIDES_AVOID then
      (entry2, c.opp_entry, none)
    else
      match c.opp_entry with
      | none => (entry2, none, none)
      | some opp =>
        if c.opp_current_oi = 0 then (entry2, some opp, none) else
        -- is_covering = scan_to_scan_covering or already_unwound (lines 781-784)
        if ¬((c.opp_current_oi < opp.prev_oi ∧
                opp_decline_pct_of opp c.opp_current_oi ≤ MIN_DECLINE_PCT) ∨
              opp_cumulative_decline_pct_of opp c.opp_current_oi ≤
                MIN_CUMULATIVE_DECLINE_PCT)
        then (entry2, some { opp with decline_streak := 0 }, none)
        else
          let bd : BuildupData :=
            { strike := c.strike
              opt_type := c.opt
              oi_pct := oi_pct
              ltp_change_pct := ltp_change_pct
              vol_multiplier := vol_multiplier
              opp_decline_pct := min (opp_decline_pct_of opp c.opp_current_oi)
                (opp_cumulative_decline_pct_of opp c.opp_current_oi)
              decline_streak := opp.decline_streak + 1
              buildup_time_mins := calculate_buildup_time entry2 c.current_time
              scan_count := entry2.scan_count
              exec_threshold := OI_EXEC_THRESHOLD }
          if (calculate_conviction_score bd c.atm c.day_open c.spot c.changes).1
              < c.min_conviction_score then
            (entry2, some { opp with decline_streak := opp.decline_streak + 1 }, none)
          else
            ({ entry2 with state := StState.EXECUTED },
              some { opp with decline_streak := opp.decline_streak + 1 }, some bd)
  else (entry2, c.opp_entry, none)

/-- One iteration of the main processing loop (lines 660-852) for a row
whose ledger entry already exists (the seeding branch for a new entry
never classifies).  Returns (updated entry, updated opposite entry,
updated watch counter, collected buildup candidate if any). -/
def processRow (entry : Entry) (c : RowCtx) :
    Entry × Option Entry × ℕ × Option BuildupData :=
  if entry.baseline_oi < MIN_BASE_OI then (entry, c.opp_entry, c.watch_today, none) else
  let oi_pct := oiPctOf entry.baseline_oi c.oi
  let ltp_change_pct : ℚ := if entry.baseline_ltp > 0
    then (c.ltp - entry.baseline_ltp) / entry.baseline_ltp * 100 else 0
  let vol_multiplier : ℚ := if (0 : ℤ) < entry.baseline_vol
    then (c.vol : ℚ) / (entry.baseline_vol : ℚ) else 1
  let w := watchBlock entry oi_pct c.strike c.atm c.changes c.watch_today
  let entry2 := trackBlock w.1 oi_pct c.current_time
  let e := execBlock entry.state entry2 c oi_pct ltp_change_pct vol_multiplier
  (e.1, e.2.1, w.2, e.2.2)

/-- State order of one strike after each of a sequence of scans, starting
from `entry`: the per-scan contexts are arbitrary, covering every
evolution of the surrounding session. -/
def stOrdTrace (entry : Entry) : List RowCtx → List ℕ
  | [] => []
  | c :: cs =>
    stOrd (processRow entry c).1.state :: stOrdTrace (processRow entry c).1 cs

/-! ## Strike-band pre-filter (scan lines 625-626 and the WATCH distance gate) -/

/-- The dataframe band filter: `atm - STRIKE_RANGE_POINTS <= strike_price
<= atm + STRIKE_RANGE_POINTS`. -/
def in_strike_band (atm strike : ℤ) : Bool :=
  decide (atm - STRIKE_RANGE_POINTS ≤ strike) && decide (strike ≤ atm + STRIKE_RANGE_POINTS)

/-- The WATCH proximity gate `too_far_otm = abs(strike - atm) > 100`
(line 704). -/
def too_far_otm_check (strike atm : ℤ) : Bool :=
  decide (|strike - atm| > 100)

/-! ## Persistence prefix of `scan()` (lines 535-616 with `reset_on_new_day`) -/

/-- The persisted per-day session record `baseline` (every field present,
as `migrate_baseline_if_needed` guarantees).  Dates are day identifiers;
`day_open` is the rounded integer spot as `get_nifty_spot` returns it. -/
structure Baseline where
  date : Option ℤ
  data : List ((OptSide × ℤ) × Entry)
  first_alert_sent : Bool
  day_open : Option ℤ
  signals_today : ℕ
  watch_today : ℕ
  daily_signals : List ℤ
deriving DecidableEq

/-- The `reset_on_new_day` function: on a date mismatch every field is
reset and the result is saved immediately. -/
def reset_on_new_day (b : Baseline) (today : ℤ) : Baseline :=
  if b.date = some today then b
  else
    { date := some today
      data := []
      first_alert_sent := false
      day_open := none
      signals_today := 0
      watch_today := 0
      daily_signals := [] }

/-- Outcomes of the prefix of `scan()` up to the option-chain fetch. -/
inductive ScanOutcome where
  | marketClosed
  | startupFetchFailed
  | outsideWindow
  | spotFetchFailed
  | chainFetchFailed
  | proceeded
deriving DecidableEq

/-- External-call outcomes of one invocation: whether the market-hours and
trading-window checks pass, the result of the spot fetch inside the
startup-ping block (`none` = the fetch raised), the result of the main
spot fetch, and whether the chain fetch succeeded. -/
structure FetchEnv where
  marketOpen : Bool
  inWindow : Bool
  startupSpot : Option ℤ
  mainSpot : Option ℤ
  chainOk : Bool
  today : ℤ

/-- Persistence model of `scan()` from its start through the option-chain
fetch (lines 535-584): every mutation in this prefix is saved immediately
(`reset_on_new_day`, the startup-ping flag, the day-open capture), so the
returned record is exactly what is on disk when the prefix ends — in
particular when one of the fetches raises and the scan aborts there. -/
def scanPersisted (b0 : Baseline) (env : FetchEnv) : Baseline × ScanOutcome :=
  if env.marketOpen = false then (b0, ScanOutcome.marketClosed) else
  let b1 := reset_on_new_day b0 env.today
  if b1.first_alert_sent = false ∧ env.startupSpot = none then
    (b1, ScanOutcome.startupFetchFailed)
  else
  let b2 := if b1.first_alert_sent = false then { b1 with first_alert_sent := true } else b1
  if env.inWindow = false then (b2, ScanOutcome.outsideWindow) else
  match env.mainSpot with
  | none => (b2, ScanOutcome.spotFetchFailed)
  | some spot =>
    let b3 := if b2.day_open = none then { b2 with day_open := some spot } else b2
    if env.chainOk = false then (b3, ScanOutcome.chainFetchFailed) else
    (b3, ScanOutcome.proceeded)

/-- Claim C5's reading of the premium-behavior component, written from the
spec's words: the neutral band reaches up to the scan's *adapted* premium
tolerance and the -10 penalty applies only beyond it. -/
def premium_behavior_pts_claimed (tolerance ltp_change_pct : ℚ) : ℤ :=
  if ltp_change_pct ≤ -5 then 15
  else if ltp_change_pct ≤ 0 then 10
  else if ltp_change_pct ≤ 5 then 5
  else if ltp_change_pct ≤ tolerance then 0
  else -10

/-! ## Theorems -/

/-- Claim C2: with fewer than 3 signals sent today any candidate is
allowed; at or above the daily cap (with a nonempty record of today's
signals) a candidate of score s is allowed iff s exceeds the weakest
recorded score by more than 10; at the cap with weakest score 95, a
candidate scoring 104 is rejected and one scoring 106 is allowed. -/
theorem C2_should_send_signal_spec (st : ℕ) (ds : List ℤ) (s : ℤ) :
    (st < MAX_SIGNALS_PER_DAY → should_send_signal st ds s = true) ∧
    (MAX_SIGNALS_PER_DAY ≤ st → ds ≠ [] →
      (should_send_signal st ds s = true ↔
        minScore ds + SCORE_IMPROVEMENT_THRESHOLD < s)) ∧
    should_send_signal 3 [120, 110, 95] 104 = false ∧
    should_send_signal 3 [120, 110, 95] 106 = true := by
  refine ⟨?_, ?_, ?_, ?_⟩
  · intro h
    simp [should_send_signal, h]
  · intro h hne
    have hlt : ¬ st < MAX_SIGNALS_PER_DAY := by omega
    simp [should_send_signal, hlt, hne]
  · decide
  · decide

/-- Claim C8: the minimum conviction score is the configured base for
every daysToExpiry at least 2, 100 at daysToExpiry 1, and 120 at
daysToExpiry 0. -/
theorem C8_min_conviction_score_spec (base d : ℤ) :
    (2 ≤ d → min_conviction_score_for base d = base) ∧
    min_conviction_score_for base 1 = 100 ∧
    min_conviction_score_for base 0 = 120 := by
  refine ⟨?_, ?_, ?_⟩
  · intro h
    unfold min_conviction_score_for
    split_ifs <;> omega
  · unfold min_conviction_score_for
    norm_num
  · unfold min_conviction_score_for
    norm_num

/-- Premium tolerance with a present, nonzero day-open, as a plain
if-chain on the absolute drift. -/
lemma premium_tolerance_for_some (d s : ℚ) (hd : d ≠ 0) :
    premium_tolerance_for (some d) s =
      (if |(s - d) / d * 100| ≥ 1/2 then 15
       else if |(s - d) / d * 100| ≥ 3/10 then 10 else PREMIUM_MAX_RISE) := by
  unfold premium_tolerance_for
  simp [hd]

/-- Claim C9: with m the absolute day-open spot drift in percent, the
scan's premium tolerance is 15 when m is at least 0.5, 10 when m is in
[0.3, 0.5), and the base 8 when m is below 0.3. -/
theorem C9_premium_tolerance_spec (d s : ℚ) (hd : d ≠ 0) :
    (1/2 ≤ |(s - d) / d * 100| → premium_tolerance_for (some d) s = 15) ∧
    (3/10 ≤ |(s - d) / d * 100| ∧ |(s - d) / d * 100| < 1/2 →
      premium_tolerance_for (some d) s = 10) ∧
    (|(s - d) / d * 100| < 3/10 → premium_tolerance_for (some d) s = 8) := by
  rw [premium_tolerance_for_some d s hd]
  refine ⟨?_, ?_, ?_⟩
  · intro h
    rw [if_pos h]
  · rintro ⟨h1, h2⟩
    rw [if_neg (by linarith), if_pos h1]
  · intro h
    rw [if_neg (by linarith), if_neg (by linarith)]
    rfl

/-- Claim C9 witness: concrete drifts of 1%, 0.4% and 0.1% give
tolerances 15, 10 and 8. -/
theorem C9_premium_tolerance_witness :
    premium_tolerance_for (some 100) 101 = 15 ∧
    premium_tolerance_for (some 100) (100.4 : ℚ) = 10 ∧
    premium_tolerance_for (some 100) (100.1 : ℚ) = 8 := by
  refine ⟨?_, ?_, ?_⟩
  · exact (C9_premium_tolerance_spec 100 101 (by norm_num)).1
      (by rw [abs_of_nonneg (by norm_num)]; norm_num)
  · exact (C9_premium_tolerance_spec 100 (100.4 : ℚ) (by norm_num)).2.1
      ⟨by rw [abs_of_nonneg (by norm_num)]; norm_num,
       by rw [abs_of_nonneg (by norm_num)]; norm_num⟩
  · exact (C9_premium_tolerance_spec 100 (100.1 : ℚ) (by norm_num)).2.2
      (by rw [abs_of_nonneg (by norm_num)]; norm_num)

/-- Claim C6: a strike in state NONE whose OI percent reaches the watch
threshold advances to WATCH on that scan for every configuration of the
notification quality gates (conflict, distance, daily watch cap); the
gates only decide the message and the watch counter. -/
theorem C6_watch_state_advance (e : Entry) (oi_pct : ℚ) (strike atm : ℤ)
    (ch : ℤ → OptSide → ℚ) (wt : ℕ)
    (h1 : e.state = StState.NONE) (h2 : OI_WATCH_THRESHOLD ≤ oi_pct) :
    (watchBlock e oi_pct strike atm ch wt).1.state = StState.WATCH := by
  unfold watchBlock
  rw [if_pos ⟨h2, h1⟩]

/-- Entry used by the C6 witness: state NONE, liquid baseline. -/
def entryC6 : Entry :=
  { baseline_oi := 2000
    baseline_ltp := 100
    baseline_vol := 1000
    prev_oi := 2000
    state := StState.NONE
    first_exec_time := none
    scan_count := 0
    decline_streak := 0 }

/-- Claim C6 witness: at a strike 300 points from ATM, with both sides
conflicted (260% each) and the daily watch cap already reached, the state
still advances to WATCH. -/
theorem C6_watch_state_advance_witness :
    (watchBlock entryC6 350 24300 24000 (fun _ _ => 260) 3).1.state = StState.WATCH :=
  C6_watch_state_advance entryC6 350 24300 24000 (fun _ _ => 260) 3 rfl
    (by norm_num [OI_WATCH_THRESHOLD])

/-- Claim C10: chain rows are pre-filtered to the band
[ATM - 100, ATM + 100], so every row that reaches classification has
|strike - ATM| at most 100: the WATCH distance gate is false for every
such row, and a suppressed watch notification (fired but counter not
bumped) can only be due to the conflict gate or the daily watch cap. -/
theorem C10_distance_gate_vacuous (atm strike : ℤ)
    (h : in_strike_band atm strike = true) :
    too_far_otm_check strike atm = false ∧
    ∀ (e : Entry) (oi_pct : ℚ) (ch : ℤ → OptSide → ℚ) (wt : ℕ),
      OI_WATCH_THRESHOLD ≤ oi_pct → e.state = StState.NONE →
      (watchBlock e oi_pct strike atm ch wt).2 = wt →
      (ch strike OptSide.CE ≥ OI_BOTH_SIDES_AVOID ∧
        ch strike OptSide.PE ≥ OI_BOTH_SIDES_AVOID) ∨ MAX_WATCH_PER_DAY ≤ wt := by
  simp only [in_strike_band, STRIKE_RANGE_POINTS, Bool.and_eq_true, decide_eq_true_eq] at h
  have habs : ¬ |strike - atm| > 100 := by
    rw [not_lt, abs_le]
    omega
  constructor
  · simp only [too_far_otm_check, decide_eq_false_iff_not]
    exact habs
  · intro e oi_pct ch wt hoi hst hwt
    unfold watchBlock at hwt
    rw [if_pos ⟨hoi, hst⟩] at hwt
    by_contra hcon
    rcases not_or.mp hcon with ⟨hc1, hc2⟩
    rw [show (({ e with state := StState.WATCH },
        if ¬(ch strike OptSide.CE ≥ OI_BOTH_SIDES_AVOID ∧
               ch strike OptSide.PE ≥ OI_BOTH_SIDES_AVOID) ∧
           ¬(|strike - atm| > 100) ∧ ¬(wt ≥ MAX_WATCH_PER_DAY)
        then wt + 1 else wt) : Entry × ℕ).2 =
        (if ¬(ch strike OptSide.CE ≥ OI_BOTH_SIDES_AVOID ∧
               ch strike OptSide.PE ≥ OI_BOTH_SIDES_AVOID) ∧
           ¬(|strike - atm| > 100) ∧ ¬(wt ≥ MAX_WATCH_PER_DAY)
        then wt + 1 else wt) from rfl] at hwt
    rw [if_pos ⟨hc1, habs, hc2⟩] at hwt
    omega

/-- Claim C10 witness: the strike 100 points above ATM passes the band
filter and the distance gate cannot fire on it. -/
theorem C10_distance_gate_vacuous_witness :
    too_far_otm_check 24100 24000 = false :=
  (C10_distance_gate_vacuous 24000 24100 (by decide)).1

/-! ## Component bounds for the conviction scorer -/

lemma strike_quality_pts_bounds (s a : ℤ) :
    0 ≤ strike_quality_pts s a ∧ strike_quality_pts s a ≤ 30 := by
  unfold strike_quality_pts
  split_ifs <;> norm_num

lemma volume_pts_bounds (v : ℚ) : 0 ≤ volume_pts v ∧ volume_pts v ≤ 20 := by
  unfold volume_pts
  split_ifs <;> norm_num

lemma velocity_pts_bounds (t : ℚ) : 0 ≤ velocity_pts t ∧ velocity_pts t ≤ 25 := by
  unfold velocity_pts
  split_ifs <;> norm_num

lemma decline_pts_bounds (d : ℚ) : 0 ≤ decline_pts d ∧ decline_pts d ≤ 25 := by
  unfold decline_pts
  split_ifs <;> norm_num

lemma decline_streak_pts_bounds (n : ℕ) :
    0 ≤ decline_streak_pts n ∧ decline_streak_pts n ≤ 20 := by
  unfold decline_streak_pts
  split_ifs <;> norm_num

lemma spot_pts_bounds (o : OptSide) (dO : Option ℚ) (sp : ℚ) :
    -20 ≤ spot_pts o dO sp ∧ spot_pts o dO sp ≤ 20 := by
  rcases dO with _ | d
  · rcases o with _ | _ <;> simp [spot_pts]
  · rcases o with _ | _ <;> (simp only [spot_pts]; split_ifs <;> norm_num)

lemma sustainability_pts_bounds (n : ℕ) :
    0 ≤ sustainability_pts n ∧ sustainability_pts n ≤ 15 := by
  unfold sustainability_pts
  split_ifs <;> norm_num

lemma cluster_pts_bounds (a b : ℕ) : 0 ≤ cluster_pts a b ∧ cluster_pts a b ≤ 20 := by
  unfold cluster_pts
  split_ifs <;> norm_num

lemma premium_behavior_pts_bounds (x : ℚ) :
    -10 ≤ premium_behavior_pts x ∧ premium_behavior_pts x ≤ 15 := by
  unfold premium_behavior_pts
  split_ifs <;> norm_num

/-- Total score of `calculate_conviction_score`, written out. -/
lemma calculate_conviction_score_fst (bd : BuildupData) (atm : ℤ)
    (day_open : Option ℚ) (spot : ℚ) (ch : ℤ → OptSide → ℚ) :
    (calculate_conviction_score bd atm day_open spot ch).1 =
      strike_quality_pts bd.strike atm + volume_pts bd.vol_multiplier
        + velocity_pts bd.buildup_time_mins + decline_pts bd.opp_decline_pct
        + decline_streak_pts bd.decline_streak + spot_pts bd.opt_type day_open spot
        + sustainability_pts bd.scan_count
        + cluster_pts (check_adjacent_cluster bd.strike bd.opt_type ch bd.exec_threshold).1
            (check_adjacent_cluster bd.strike bd.opt_type ch bd.exec_threshold).2
        + premium_behavior_pts bd.ltp_change_pct := rfl

/-- Claim C4: the total conviction score always lies in [-30, 190], the
returned tier is exactly `tierOf` of the score, and the tier boundaries
are PREMIUM iff score at least 120, HIGH iff in [90, 119], MEDIUM iff in
[60, 89], LOW iff below 60. -/
theorem C4_score_range_and_tiers (bd : BuildupData) (atm : ℤ)
    (day_open : Option ℚ) (spot : ℚ) (ch : ℤ → OptSide → ℚ) :
    (-30 ≤ (calculate_conviction_score bd atm day_open spot ch).1 ∧
      (calculate_conviction_score bd atm day_open spot ch).1 ≤ 190) ∧
    (calculate_conviction_score bd atm day_open spot ch).2.1 =
      tierOf (calculate_conviction_score bd atm day_open spot ch).1 ∧
    (∀ sc : ℤ,
      (tierOf sc = Tier.PREMIUM ↔ 120 ≤ sc) ∧
      (tierOf sc = Tier.HIGH ↔ 90 ≤ sc ∧ sc ≤ 119) ∧
      (tierOf sc = Tier.MEDIUM ↔ 60 ≤ sc ∧ sc ≤ 89) ∧
      (tierOf sc = Tier.LOW ↔ sc < 60)) := by
  refine ⟨?_, rfl, ?_⟩
  · rw [calculate_conviction_score_fst]
    obtain ⟨a1, a2⟩ := strike_quality_pts_bounds bd.strike atm
    obtain ⟨b1, b2⟩ := volume_pts_bounds bd.vol_multiplier
    obtain ⟨c1, c2⟩ := velocity_pts_bounds bd.buildup_time_mins
    obtain ⟨d1, d2⟩ := decline_pts_bounds bd.opp_decline_pct
    obtain ⟨e1, e2⟩ := decline_streak_pts_bounds bd.decline_streak
    obtain ⟨f1, f2⟩ := spot_pts_bounds bd.opt_type day_open spot
    obtain ⟨g1, g2⟩ := sustainability_pts_bounds bd.scan_count
    obtain ⟨i1, i2⟩ := cluster_pts_bounds
      (check_adjacent_cluster bd.strike bd.opt_type ch bd.exec_threshold).1
      (check_adjacent_cluster bd.strike bd.opt_type ch bd.exec_threshold).2
    obtain ⟨j1, j2⟩ := premium_behavior_pts_bounds bd.ltp_change_pct
    constructor <;> linarith
  · intro sc
    unfold tierOf
    split_ifs with h1 h2 h3 <;>
      refine ⟨?_, ?_, ?_, ?_⟩ <;> constructor <;> intro hh <;>
      first | omega | rfl | simp_all

/-- Buildup data used by the C5 counterexample: premium risen by 9%. -/
def bdC5 : BuildupData :=
  { strike := 24000
    opt_type := OptSide.CE
    oi_pct := 600
    ltp_change_pct := 9
    vol_multiplier := 1
    opp_decline_pct := -2
    decline_streak := 1
    buildup_time_mins := 10
    scan_count := 1
    exec_threshold := 500 }

/-- Claim C5 counterexample: on a scan whose spot drift is 1% the adapted
premium tolerance is 15, and the claim then assigns component 0 to a
premium rise of 9%; the code's scorer compares against the fixed base 8
and assigns -10. -/
theorem C5_counterexample :
    (calculate_conviction_score bdC5 24000 none 0 (fun _ _ => 0)).2.2.premium_behavior_pts
      = -10 ∧
    premium_tolerance_for (some 24000) 24240 = 15 ∧
    premium_behavior_pts_claimed 15 9 = 0 := by
  refine ⟨?_, ?_, ?_⟩
  · show premium_behavior_pts bdC5.ltp_change_pct = -10
    norm_num [bdC5, premium_behavior_pts, PREMIUM_MAX_RISE]
  · rw [premium_tolerance_for_some 24000 24240 (by norm_num)]
    rw [show ((24240 : ℚ) - 24000) / 24000 * 100 = 1 by norm_num]
    rw [if_pos (by norm_num)]
  · norm_num [premium_behavior_pts_claimed]

/-- Claim C5 as amended: the premium-behavior component is a function of
ltpChangePct alone, with the neutral band capped by the fixed base
tolerance 8 (PREMIUM_MAX_RISE), independent of the scan's adapted
tolerance: +15 iff ltpChangePct ≤ -5, +10 iff -5 < ltpChangePct ≤ 0,
+5 iff 0 < ltpChangePct ≤ 5, 0 iff 5 < ltpChangePct ≤ 8, and -10 iff
ltpChangePct > 8. -/
theorem C5_premium_component_bands (x : ℚ) :
    (premium_behavior_pts x = 15 ↔ x ≤ -5) ∧
    (premium_behavior_pts x = 10 ↔ -5 < x ∧ x ≤ 0) ∧
    (premium_behavior_pts x = 5 ↔ 0 < x ∧ x ≤ 5) ∧
    (premium_behavior_pts x = 0 ↔ 5 < x ∧ x ≤ 8) ∧
    (premium_behavior_pts x = -10 ↔ 8 < x) ∧
    (∀ (bd : BuildupData) (atm : ℤ) (dO : Option ℚ) (sp : ℚ)
        (ch : ℤ → OptSide → ℚ),
      (calculate_conviction_score bd atm dO sp ch).2.2.premium_behavior_pts =
        premium_behavior_pts bd.ltp_change_pct) := by
  refine ⟨?_, ?_, ?_, ?_, ?_, fun bd atm dO sp ch => rfl⟩ <;>
    · unfold premium_behavior_pts PREMIUM_MAX_RISE
      split_ifs <;> constructor <;> intro hh <;>
        first
          | rfl
          | linarith
          | (exact ⟨by linarith, by linarith⟩)
          | (obtain ⟨hh1, hh2⟩ := hh
             linarith)
          | norm_num at hh

/-! ## State-machine lemmas for the classifier -/

/-- The WATCH block leaves an entry alone unless its state is NONE. -/
lemma watchBlock_not_none (e : Entry) (oi_pct : ℚ) (strike atm : ℤ)
    (ch : ℤ → OptSide → ℚ) (wt : ℕ) (h : e.state ≠ StState.NONE) :
    watchBlock e oi_pct strike atm ch wt = (e, wt) := by
  unfold watchBlock
  rw [if_neg (fun hc => h hc.2)]

/-- The WATCH block either keeps the state or moves NONE to WATCH. -/
lemma watchBlock_state_cases (e : Entry) (oi_pct : ℚ) (strike atm : ℤ)
    (ch : ℤ → OptSide → ℚ) (wt : ℕ) :
    (watchBlock e oi_pct strike atm ch wt).1.state = e.state ∨
    ((watchBlock e oi_pct strike atm ch wt).1.state = StState.WATCH ∧
      e.state = StState.NONE) := by
  unfold watchBlock
  split_ifs with h h2
  · exact Or.inr ⟨rfl, h.2⟩
  · exact Or.inr ⟨rfl, h.2⟩
  · exact Or.inl rfl

/-- The streak-tracking block never changes the state. -/
lemma trackBlock_state (e : Entry) (oi_pct t : ℚ) :
    (trackBlock e oi_pct t).state = e.state := by
  unfold trackBlock
  split_ifs <;> cases hfe : e.first_exec_time <;> simp only [hfe]

/-- With the local state already EXECUTED, the execution block is a
no-op: it returns the entry and the opposite entry untouched and emits no
candidate. -/
lemma execBlock_executed (e2 : Entry) (c : RowCtx) (a b v : ℚ) :
    execBlock StState.EXECUTED e2 c a b v = (e2, c.opp_entry, none) := by
  unfold execBlock
  rw [if_pos rfl]

/-- The execution block either returns the entry unchanged or with state
set to EXECUTED. -/
lemma execBlock_state_cases (s : StState) (e2 : Entry) (c : RowCtx) (a b v : ℚ) :
    (execBlock s e2 c a b v).1 = e2 ∨
    (execBlock s e2 c a b v).1 = { e2 with state := StState.EXECUTED } := by
  rcases hopp : c.opp_entry with _ | opp <;>
    (simp only [execBlock, hopp]
     split_ifs <;> first | exact Or.inl rfl | exact Or.inr rfl)

/-- Composing the three blocks can only keep or advance the state. -/
lemma composed_state_mono (e : Entry) (c : RowCtx) (X : Entry) (a b v : ℚ)
    (hX : X.state = e.state ∨ (X.state = StState.WATCH ∧ e.state = StState.NONE)) :
    stOrd e.state ≤ stOrd (execBlock e.state X c a b v).1.state := by
  rcases execBlock_state_cases e.state X c a b v with h | h
  · rw [h]
    rcases hX with h2 | ⟨h2, h3⟩
    · rw [h2]
    · rw [h2, h3]
      norm_num [stOrd]
  · rw [h]
    show stOrd e.state ≤ stOrd StState.EXECUTED
    cases e.state <;> norm_num [stOrd]

/-- One scan never moves a strike's state backward. -/
lemma processRow_state_mono (e : Entry) (c : RowCtx) :
    stOrd e.state ≤ stOrd (processRow e c).1.state := by
  simp only [processRow]
  split_ifs with hb
  · exact le_refl _
  all_goals
    exact composed_state_mono e c _ _ _ _
      (by
        rw [trackBlock_state]
        exact watchBlock_state_cases e _ c.strike c.atm c.changes c.watch_today)

/-- A strike already EXECUTED stays EXECUTED, its opposite entry is left
untouched, and no candidate is emitted. -/
lemma processRow_executed (e : Entry) (c : RowCtx)
    (he : e.state = StState.EXECUTED) :
    (processRow e c).1.state = StState.EXECUTED ∧
    (processRow e c).2.1 = c.opp_entry ∧
    (processRow e c).2.2.2 = none := by
  simp only [processRow]
  split_ifs with hb
  · exact ⟨he, rfl, rfl⟩
  all_goals
    rw [he, execBlock_executed]
    refine ⟨?_, rfl, rfl⟩
    rw [trackBlock_state]
    rw [watchBlock_not_none e _ c.strike c.atm c.changes c.watch_today
      (by rw [he]; exact fun hx => StState.noConfusion hx)]
    exact he

/-- Claim C3: within one trading day a strike's state only moves forward
along NONE → WATCH → EXECUTED (the state order is a monotone chain over
any sequence of scans), and a strike whose state is EXECUTED at the start
of a scan is never evaluated for execution again: it stays EXECUTED, no
candidate is emitted for it and its opposite side is untouched, so it
transitions to EXECUTED at most once per day. -/
theorem C3_state_monotone_and_terminal (e : Entry) (cs : List RowCtx) (c : RowCtx) :
    List.Chain (fun a b => a ≤ b) (stOrd e.state) (stOrdTrace e cs) ∧
    (e.state = StState.EXECUTED →
      (processRow e c).1.state = StState.EXECUTED ∧
      (processRow e c).2.1 = c.opp_entry ∧
      (processRow e c).2.2.2 = none) := by
  constructor
  · induction cs generalizing e with
    | nil => exact List.Chain.nil
    | cons c0 cs0 ih => exact List.Chain.cons (processRow_state_mono e c0) (ih _)
  · exact fun he => processRow_executed e c he

/-- A qualifying scan-to-scan decline forces the opposite OI to have
actually dropped, so the code's extra `opp_current_oi < opp_prev_oi`
conjunct is implied. -/
lemma decline_pct_le_imp_lt (opp : Entry) (cur : ℤ)
    (h : opp_decline_pct_of opp cur ≤ MIN_DECLINE_PCT) : cur < opp.prev_oi := by
  unfold opp_decline_pct_of at h
  have hm : MIN_DECLINE_PCT < 0 := by norm_num [MIN_DECLINE_PCT]
  by_cases hp : opp.prev_oi > 0
  · rw [if_pos hp] at h
    by_contra hcur
    push_neg at hcur
    have h0 : (0 : ℚ) ≤ ((cur : ℚ) - (opp.prev_oi : ℚ)) / (opp.prev_oi : ℚ) * 100 := by
      apply mul_nonneg
      · apply div_nonneg
        · rw [sub_nonneg]
          exact_mod_cast hcur
        · exact le_of_lt (by exact_mod_cast hp)
      · norm_num
    linarith
  · rw [if_neg hp] at h
    linarith

/-- Claim C7: for an execution candidate (OI at the exec threshold,
premium within the scan tolerance, not conflicted) whose opposite side
exists with nonzero current OI, covering is confirmed iff the
scan-to-scan decline is at most -1.5% or the cumulative decline is at
most -10%: when covering holds the opposite side's decline streak is
incremented by exactly one, and when neither decline qualifies the streak
is reset to 0, the candidate is discarded (no emission) and the entry is
left unchanged. -/
theorem C7_covering_gate (origState : StState) (entry2 : Entry) (c : RowCtx)
    (oi_pct ltp_change_pct vol_multiplier : ℚ) (opp : Entry)
    (h0 : origState ≠ StState.EXECUTED)
    (h1 : oi_pct ≥ OI_EXEC_THRESHOLD)
    (h2 : ltp_change_pct ≤ c.premium_tolerance)
    (h3 : ¬(c.changes c.strike OptSide.CE ≥ OI_BOTH_SIDES_AVOID ∧
            c.changes c.strike OptSide.PE ≥ OI_BOTH_SIDES_AVOID))
    (h4 : c.opp_entry = some opp)
    (h5 : ¬(c.opp_current_oi = 0)) :
    ((opp_decline_pct_of opp c.opp_current_oi ≤ MIN_DECLINE_PCT ∨
      opp_cumulative_decline_pct_of opp c.opp_current_oi ≤ MIN_CUMULATIVE_DECLINE_PCT) →
        (execBlock origState entry2 c oi_pct ltp_change_pct vol_multiplier).2.1 =
          some { opp with decline_streak := opp.decline_streak + 1 }) ∧
    (¬(opp_decline_pct_of opp c.opp_current_oi ≤ MIN_DECLINE_PCT ∨
       opp_cumulative_decline_pct_of opp c.opp_current_oi ≤ MIN_CUMULATIVE_DECLINE_PCT) →
        (execBlock origState entry2 c oi_pct ltp_change_pct vol_multiplier).1 = entry2 ∧
        (execBlock origState entry2 c oi_pct ltp_change_pct vol_multiplier).2.1 =
          some { opp with decline_streak := 0 } ∧
        (execBlock origState entry2 c oi_pct ltp_change_pct vol_multiplier).2.2 = none) := by
  simp only [execBlock, h4]
  rw [if_neg h0, if_pos ⟨h1, h2⟩, if_neg h3, if_neg h5]
  constructor
  · intro hcov
    have hfull : (c.opp_current_oi < opp.prev_oi ∧
        opp_decline_pct_of opp c.opp_current_oi ≤ MIN_DECLINE_PCT) ∨
        opp_cumulative_decline_pct_of opp c.opp_current_oi ≤
          MIN_CUMULATIVE_DECLINE_PCT := by
      rcases hcov with hd | hc
      · exact Or.inl ⟨decline_pct_le_imp_lt opp c.opp_current_oi hd, hd⟩
      · exact Or.inr hc
    rw [if_neg (not_not_intro hfull)]
    split_ifs <;> rfl
  · intro hncov
    have hfull : ¬((c.opp_current_oi < opp.prev_oi ∧
        opp_decline_pct_of opp c.opp_current_oi ≤ MIN_DECLINE_PCT) ∨
        opp_cumulative_decline_pct_of opp c.opp_current_oi ≤
          MIN_CUMULATIVE_DECLINE_PCT) := by
      intro hf
      rcases hf with ⟨_, hd⟩ | hc
      · exact hncov (Or.inl hd)
      · exact hncov (Or.inr hc)
    rw [if_pos hfull]
    exact ⟨rfl, rfl, rfl⟩

/-- Opposite-side entry used by the C7 witness: previous OI 10000. -/
def oppC7 : Entry :=
  { baseline_oi := 10000
    baseline_ltp := 50
    baseline_vol := 1000
    prev_oi := 10000
    state := StState.NONE
    first_exec_time := none
    scan_count := 0
    decline_streak := 0 }

/-- Candidate-side entry used by the C7 witness. -/
def entryC7 : Entry :=
  { baseline_oi := 2000
    baseline_ltp := 100
    baseline_vol := 1000
    prev_oi := 2000
    state := StState.WATCH
    first_exec_time := none
    scan_count := 1
    decline_streak := 0 }

/-- Row context used by the C7 witness: opposite current OI 9800, a 2%
scan-to-scan decline. -/
def ctxC7 : RowCtx :=
  { strike := 24000
    opt := OptSide.CE
    oi := 14000
    ltp := 100
    vol := 3000
    atm := 24000
    spot := 24000
    day_open := some 24000
    current_time := 60
    changes := fun _ _ => 0
    premium_tolerance := 8
    min_conviction_score := 90
    opp_entry := some oppC7
    opp_current_oi := 9800
    watch_today := 0 }

/-- Claim C7 witness: a 10000 → 9800 opposite decline (-2% ≤ -1.5%)
confirms covering and increments the opposite decline streak to 1. -/
theorem C7_covering_gate_witness :
    (execBlock StState.NONE entryC7 ctxC7 600 0 3).2.1 =
      some { oppC7 with decline_streak := oppC7.decline_streak + 1 } := by
  have h := C7_covering_gate StState.NONE entryC7 ctxC7 600 0 3 oppC7
    (by decide)
    (by norm_num [OI_EXEC_THRESHOLD])
    (by norm_num [ctxC7])
    (by norm_num [ctxC7, OI_BOTH_SIDES_AVOID])
    rfl
    (by norm_num [ctxC7])
  exact h.1 (Or.inl (by norm_num [opp_decline_pct_of, oppC7, ctxC7, MIN_DECLINE_PCT]))

/-- Prior-day baseline used by the C1 counterexample: two signals already
recorded under date 100. -/
def b0C1 : Baseline :=
  { date := some 100
    data := []
    first_alert_sent := true
    day_open := some 24000
    signals_today := 2
    watch_today := 1
    daily_signals := [95] }

/-- Fetch environment used by the C1 counterexample: market open, every
spot fetch raises, date is now 101. -/
def envC1 : FetchEnv :=
  { marketOpen := true
    inWindow := true
    startupSpot := none
    mainSpot := none
    chainOk := false
    today := 101 }

/-- Claim C1 counterexample: on an invocation where the spot fetch raises
(inside the startup-ping block, after the new-day reset has already been
saved), the persisted record is not identical to the prior one — the
trading date advanced and the signal counter was reset before the fetch
failed. -/
theorem C1_counterexample :
    (scanPersisted b0C1 envC1).2 = ScanOutcome.startupFetchFailed ∧
    (scanPersisted b0C1 envC1).1.signals_today = 0 ∧
    b0C1.signals_today = 2 ∧
    (scanPersisted b0C1 envC1).1.date = some 101 ∧
    b0C1.date = some 100 :=
  ⟨rfl, rfl, rfl, rfl, rfl⟩

/-- Claim C1 as amended: when the spot or chain fetch raises the scan
aborts before any classification, so the persisted strikes map, trading
date, counters and daily-signal list are exactly those left by the
new-day reset (unchanged if the date already matched) and no StrikeState
is created or modified; but mutations saved before the failing fetch
survive: the reset itself, the startup-notified flag, and the day-open
capture when the spot fetch succeeded before the chain fetch failed. -/
theorem C1_fetch_failure_state (b0 : Baseline) (env : FetchEnv)
    (h : (scanPersisted b0 env).2 = ScanOutcome.startupFetchFailed ∨
         (scanPersisted b0 env).2 = ScanOutcome.spotFetchFailed ∨
         (scanPersisted b0 env).2 = ScanOutcome.chainFetchFailed) :
    (scanPersisted b0 env).1.data = (reset_on_new_day b0 env.today).data ∧
    (scanPersisted b0 env).1.date = (reset_on_new_day b0 env.today).date ∧
    (scanPersisted b0 env).1.signals_today =
      (reset_on_new_day b0 env.today).signals_today ∧
    (scanPersisted b0 env).1.watch_today =
      (reset_on_new_day b0 env.today).watch_today ∧
    (scanPersisted b0 env).1.daily_signals =
      (reset_on_new_day b0 env.today).daily_signals := by
  rcases hm : env.mainSpot with _ | spot <;>
    (simp only [scanPersisted, hm] at h ⊢
     split_ifs at h ⊢ <;>
       first
         | exact ⟨rfl, rfl, rfl, rfl, rfl⟩
         | (rcases h with h | h | h <;> simp at h))

/-- Claim C1 amended-claim witness at the counterexample input. -/
theorem C1_fetch_failure_state_witness :
    (scanPersisted b0C1 envC1).1.data = (reset_on_new_day b0C1 envC1.today).data ∧
    (scanPersisted b0C1 envC1).1.date = (reset_on_new_day b0C1 envC1.today).date ∧
    (scanPersisted b0C1 envC1).1.signals_today =
      (reset_on_new_day b0C1 envC1.today).signals_today ∧
    (scanPersisted b0C1 envC1).1.watch_today =
      (reset_on_new_day b0C1 envC1.today).watch_today ∧
    (scanPersisted b0C1 envC1).1.daily_signals =
      (reset_on_new_day b0C1 envC1.today).daily_signals :=
  C1_fetch_failure_state b0C1 envC1 (Or.inl rfl)
